import Mathlib

/-!
Verification of the cosign SBOM gatekeeper provider
(`pkg/provider/verifier.go`, `pkg/provider/server.go`, `pkg/provider/types.go`).

The Go code is shallowly embedded:

* JSON documents are modelled by the inductive `Json`; raw attestation byte
  strings are modelled by `Bytes` (`Bytes.json j` is a byte string that parses
  as the JSON value `j`, `Bytes.raw s` one that is not valid JSON).
* `encoding/json.Unmarshal` into each Go struct is modelled by a decoder
  returning `Option` (`none` = unmarshal error), following Go's semantics:
  a struct target accepts a JSON object or `null`, unknown object keys are
  ignored, duplicate keys are resolved last-wins, `null`/absent fields keep
  the zero value, and a type-mismatched field is an error.
* External effects (base64 decoding, the Kubernetes API, registry reference
  parsing, and cosign's `VerifyImageAttestations`) are oracle fields of a
  `World` record; the repository's own control flow over those oracles is
  embedded faithfully.
* Fallible Go functions returning `(T, error)` become `Except String T`.
-/

/-- JSON values (numbers restricted to integers, which is all the modelled
documents use). -/
inductive Json where
  | null : Json
  | jbool : Bool → Json
  | num : Int → Json
  | str : String → Json
  | arr : List Json → Json
  | obj : List (String × Json) → Json

/-- A raw byte string, classified by whether it parses as JSON. -/
inductive Bytes where
  | json : Json → Bytes
  | raw : String → Bytes

/-! ## Go `strings.Split` / `strings.SplitN` -/

/-- Split a character list at the first occurrence of `sep`:
`some (before, after)` when `sep` occurs, `none` otherwise. -/
def splitFirst (sep : Char) : List Char → Option (List Char × List Char)
  | [] => none
  | c :: cs =>
    if c = sep then some ([], cs)
    else
      match splitFirst sep cs with
      | none => none
      | some pr => some (c :: pr.1, pr.2)

theorem splitFirst_snd_length_lt (sep : Char) :
    ∀ (cs : List Char) (pr : List Char × List Char),
      splitFirst sep cs = some pr → pr.2.length < cs.length := by
  intro cs
  induction cs with
  | nil => intro pr h; simp [splitFirst] at h
  | cons c cs ih =>
    intro pr h
    simp only [splitFirst] at h
    by_cases hc : c = sep
    · simp only [hc, if_pos rfl] at h
      cases h
      simp
    · simp only [if_neg hc] at h
      cases hrec : splitFirst sep cs with
      | none => rw [hrec] at h; cases h
      | some pr' =>
        rw [hrec] at h
        cases h
        have := ih pr' hrec
        simpa using Nat.lt_succ_of_lt this

/-- Unbounded Go `strings.Split` on character lists. -/
def goSplitAux (sep : Char) (cs : List Char) : List (List Char) :=
  match h : splitFirst sep cs with
  | none => [cs]
  | some pr => pr.1 :: goSplitAux sep pr.2
termination_by cs.length
decreasing_by exact splitFirst_snd_length_lt sep cs pr h

/-- Go `strings.Split(s, sep)` for a one-character separator. -/
def goSplit (s : String) (sep : Char) : List String :=
  (goSplitAux sep s.data).map String.mk

/-- Go `strings.SplitN` on character lists: at most `n` parts, the last part
keeps the unsplit remainder. -/
def goSplitNAux (sep : Char) : Nat → List Char → List (List Char)
  | 0, _ => []
  | 1, cs => [cs]
  | n + 2, cs =>
    match splitFirst sep cs with
    | none => [cs]
    | some pr => pr.1 :: goSplitNAux sep (n + 1) pr.2

/-- Go `strings.SplitN(s, sep, n)` for a one-character separator. -/
def goSplitN (s : String) (sep : Char) (n : Nat) : List String :=
  (goSplitNAux sep n s.data).map String.mk

/-! ## JSON unmarshalling primitives (Go `encoding/json` semantics) -/

/-- Object field lookup; Go keeps the last occurrence of a duplicate key. -/
def getField (fs : List (String × Json)) (k : String) : Option Json :=
  ((fs.filter (fun f => f.1 == k)).getLast?).map (fun f => f.2)

/-- Unmarshal an object field into a Go `string`: absent or `null` keeps the
zero value `""`; a non-string value is an unmarshal error. -/
def decodeStringField (fs : List (String × Json)) (k : String) : Option String :=
  match getField fs k with
  | none => some ""
  | some .null => some ""
  | some (.str s) => some s
  | some _ => none

/-- Unmarshal an object field into a Go `bool`. -/
def decodeBoolField (fs : List (String × Json)) (k : String) : Option Bool :=
  match getField fs k with
  | none => some false
  | some .null => some false
  | some (.jbool b) => some b
  | some _ => none

/-- Unmarshal an object field into a Go `int`. -/
def decodeIntField (fs : List (String × Json)) (k : String) : Option Int :=
  match getField fs k with
  | none => some 0
  | some .null => some 0
  | some (.num n) => some n
  | some _ => none

/-- Unmarshal an object field into a Go slice, returning the raw element
list: absent or `null` is the nil slice. -/
def decodeArrayField (fs : List (String × Json)) (k : String) : Option (List Json) :=
  match getField fs k with
  | none => some []
  | some .null => some []
  | some (.arr xs) => some xs
  | some _ => none

/-- Unmarshal a JSON array's elements into Go `string`s (`null` elements keep
the zero value). -/
def decodeStringElems (xs : List Json) : Option (List String) :=
  xs.mapM (fun j =>
    match j with
    | .null => some ""
    | .str s => some s
    | _ => none)

/-! ## Data model (`pkg/provider/types.go`) -/

/-- `Item` — a single key/value pair of the provider response. -/
structure Item where
  key : String
  value : String
  error : String
deriving DecidableEq, Repr

/-- `UnifiedPackage` — normalized package structure. -/
structure UnifiedPackage where
  name : String
  version : String
  license : String
  purl : String
deriving DecidableEq, Repr

/-- `UnifiedSBOM` — normalized SBOM structure for both formats. -/
structure UnifiedSBOM where
  format : String
  packages : List UnifiedPackage
deriving DecidableEq, Repr

/-- `CreationInfo` — SPDX document creation metadata. -/
structure CreationInfo where
  created : String
  creators : List String
deriving DecidableEq, Repr

/-- `ExtRef` — an external reference of an SPDX package. -/
structure ExtRef where
  referenceCategory : String
  referenceType : String
  referenceLocator : String
deriving DecidableEq, Repr

/-- `SPDXPackage` — a package of an SPDX document. -/
structure SPDXPackage where
  spdxid : String
  name : String
  versionInfo : String
  supplier : String
  downloadLocation : String
  filesAnalyzed : Bool
  licenseConcluded : String
  licenseDeclared : String
  copyrightText : String
  externalRefs : List ExtRef
deriving DecidableEq, Repr

/-- `SPDXDocument` — simplified SPDX SBOM structure. -/
structure SPDXDocument where
  spdxid : String
  spdxVersion : String
  creationInfo : CreationInfo
  name : String
  dataLicense : String
  documentNamespace : String
  packages : List SPDXPackage
deriving DecidableEq, Repr

/-- `CycloneDXMetadata` — BOM metadata. -/
structure CycloneDXMetadata where
  timestamp : String
deriving DecidableEq, Repr

/-- `CycloneDXLicenseInfo` — license details. -/
structure CycloneDXLicenseInfo where
  id : String
  name : String
deriving DecidableEq, Repr

/-- `CycloneDXLicense` — a license entry of a component. -/
structure CycloneDXLicense where
  license : CycloneDXLicenseInfo
deriving DecidableEq, Repr

/-- `CycloneDXHash` — a hash value of a component. -/
structure CycloneDXHash where
  alg : String
  content : String
deriving DecidableEq, Repr

/-- `CycloneDXComponent` — a component of a CycloneDX BOM. -/
structure CycloneDXComponent where
  type : String
  name : String
  version : String
  purl : String
  licenses : List CycloneDXLicense
  hashes : List CycloneDXHash
deriving DecidableEq, Repr

/-- `CycloneDXBOM` — CycloneDX SBOM structure. -/
structure CycloneDXBOM where
  bomFormat : String
  specVersion : String
  version : Int
  metadata : CycloneDXMetadata
  components : List CycloneDXComponent
deriving DecidableEq, Repr

/-! ## Struct decoders (`json.Unmarshal` into the Go structs above) -/

/-- Unmarshal into `CreationInfo`. -/
def decodeCreationInfo : Json → Option CreationInfo
  | .null => some { created := "", creators := [] }
  | .obj fs => do
    let created ← decodeStringField fs "created"
    let creatorsRaw ← decodeArrayField fs "creators"
    let creators ← decodeStringElems creatorsRaw
    pure { created := created, creators := creators }
  | _ => none

/-- Unmarshal into `ExtRef`. -/
def decodeExtRef : Json → Option ExtRef
  | .null => some { referenceCategory := "", referenceType := "", referenceLocator := "" }
  | .obj fs => do
    let cat ← decodeStringField fs "referenceCategory"
    let ty ← decodeStringField fs "referenceType"
    let loc ← decodeStringField fs "referenceLocator"
    pure { referenceCategory := cat, referenceType := ty, referenceLocator := loc }
  | _ => none

/-- Unmarshal into `SPDXPackage`. -/
def decodeSPDXPackage : Json → Option SPDXPackage
  | .null =>
    some { spdxid := "", name := "", versionInfo := "", supplier := "",
           downloadLocation := "", filesAnalyzed := false, licenseConcluded := "",
           licenseDeclared := "", copyrightText := "", externalRefs := [] }
  | .obj fs => do
    let spdxid ← decodeStringField fs "SPDXID"
    let name ← decodeStringField fs "name"
    let versionInfo ← decodeStringField fs "versionInfo"
    let supplier ← decodeStringField fs "supplier"
    let downloadLocation ← decodeStringField fs "downloadLocation"
    let filesAnalyzed ← decodeBoolField fs "filesAnalyzed"
    let licenseConcluded ← decodeStringField fs "licenseConcluded"
    let licenseDeclared ← decodeStringField fs "licenseDeclared"
    let copyrightText ← decodeStringField fs "copyrightText"
    let extRefsRaw ← decodeArrayField fs "externalRefs"
    let externalRefs ← extRefsRaw.mapM decodeExtRef
    pure { spdxid := spdxid, name := name, versionInfo := versionInfo,
           supplier := supplier, downloadLocation := downloadLocation,
           filesAnalyzed := filesAnalyzed, licenseConcluded := licenseConcluded,
           licenseDeclared := licenseDeclared, copyrightText := copyrightText,
           externalRefs := externalRefs }
  | _ => none

/-- Unmarshal into `SPDXDocument`. -/
def decodeSPDXDocument : Json → Option SPDXDocument
  | .null =>
    some { spdxid := "", spdxVersion := "",
           creationInfo := { created := "", creators := [] },
           name := "", dataLicense := "", documentNamespace := "", packages := [] }
  | .obj fs => do
    let spdxid ← decodeStringField fs "SPDXID"
    let spdxVersion ← decodeStringField fs "spdxVersion"
    let creationInfo ←
      match getField fs "creationInfo" with
      | none => some { created := "", creators := [] }
      | some j => decodeCreationInfo j
    let name ← decodeStringField fs "name"
    let dataLicense ← decodeStringField fs "dataLicense"
    let documentNamespace ← decodeStringField fs "documentNamespace"
    let packagesRaw ← decodeArrayField fs "packages"
    let packages ← packagesRaw.mapM decodeSPDXPackage
    pure { spdxid := spdxid, spdxVersion := spdxVersion, creationInfo := creationInfo,
           name := name, dataLicense := dataLicense,
           documentNamespace := documentNamespace, packages := packages }
  | _ => none

/-- Unmarshal into `CycloneDXMetadata`. -/
def decodeCycloneDXMetadata : Json → Option CycloneDXMetadata
  | .null => some { timestamp := "" }
  | .obj fs => do
    let timestamp ← decodeStringField fs "timestamp"
    pure { timestamp := timestamp }
  | _ => none

/-- Unmarshal into `CycloneDXLicenseInfo`. -/
def decodeCycloneDXLicenseInfo : Json → Option CycloneDXLicenseInfo
  | .null => some { id := "", name := "" }
  | .obj fs => do
    let id ← decodeStringField fs "id"
    let name ← decodeStringField fs "name"
    pure { id := id, name := name }
  | _ => none

/-- Unmarshal into `CycloneDXLicense`. -/
def decodeCycloneDXLicense : Json → Option CycloneDXLicense
  | .null => some { license := { id := "", name := "" } }
  | .obj fs => do
    let info ←
      match getField fs "license" with
      | none => some { id := "", name := "" }
      | some j => decodeCycloneDXLicenseInfo j
    pure { license := info }
  | _ => none

/-- Unmarshal into `CycloneDXHash`. -/
def decodeCycloneDXHash : Json → Option CycloneDXHash
  | .null => some { alg := "", content := "" }
  | .obj fs => do
    let alg ← decodeStringField fs "alg"
    let content ← decodeStringField fs "content"
    pure { alg := alg, content := content }
  | _ => none

/-- Unmarshal into `CycloneDXComponent`. -/
def decodeCycloneDXComponent : Json → Option CycloneDXComponent
  | .null =>
    some { type := "", name := "", version := "", purl := "", licenses := [], hashes := [] }
  | .obj fs => do
    let ty ← decodeStringField fs "type"
    let name ← decodeStringField fs "name"
    let version ← decodeStringField fs "version"
    let purl ← decodeStringField fs "purl"
    let licensesRaw ← decodeArrayField fs "licenses"
    let licenses ← licensesRaw.mapM decodeCycloneDXLicense
    let hashesRaw ← decodeArrayField fs "hashes"
    let hashes ← hashesRaw.mapM decodeCycloneDXHash
    pure { type := ty, name := name, version := version, purl := purl,
           licenses := licenses, hashes := hashes }
  | _ => none

/-- Unmarshal into `CycloneDXBOM`. -/
def decodeCycloneDXBOM : Json → Option CycloneDXBOM
  | .null =>
    some { bomFormat := "", specVersion := "", version := 0,
           metadata := { timestamp := "" }, components := [] }
  | .obj fs => do
    let bomFormat ← decodeStringField fs "bomFormat"
    let specVersion ← decodeStringField fs "specVersion"
    let version ← decodeIntField fs "version"
    let metadata ←
      match getField fs "metadata" with
      | none => some { timestamp := "" }
      | some j => decodeCycloneDXMetadata j
    let componentsRaw ← decodeArrayField fs "components"
    let components ← componentsRaw.mapM decodeCycloneDXComponent
    pure { bomFormat := bomFormat, specVersion := specVersion, version := version,
           metadata := metadata, components := components }
  | _ => none

/-! ## External collaborators (`authn`, Kubernetes, cosign) as oracles -/

/-- A registry authentication keychain (`authn.Keychain`); `base` values are
opaque, `multi` models `authn.NewMultiKeychain`. -/
inductive Keychain where
  | base : Nat → Keychain
  | multi : List Keychain → Keychain

/-- Opaque in-cluster REST configuration (`rest.Config`). -/
structure K8sConfig where
  id : Nat
deriving DecidableEq

/-- Opaque Kubernetes clientset. -/
structure K8sClient where
  id : Nat
deriving DecidableEq

/-- Opaque Kubernetes secret (`corev1.Secret`). -/
structure K8sSecret where
  id : Nat
deriving DecidableEq

/-- Opaque parsed image reference (`name.Reference`). -/
structure ImageRef where
  ref : String
deriving DecidableEq

/-- Opaque trusted-root material (`root.TrustedMaterial`). -/
structure TrustedMaterial where
  id : Nat
deriving DecidableEq

/-- `cosign.Identity` — certificate identity constraint. -/
structure CosignIdentity where
  issuer : String
  subject : String
deriving DecidableEq

/-- `cosign.CheckOpts` — the fields the provider sets. -/
structure CheckOpts where
  registryKeychain : Keychain
  claimVerifier : String
  ignoreTlog : Bool
  ignoreSCT : Bool
  experimentalOCI11 : Bool
  rekorPubKeys : Option Nat
  ctLogPubKeys : Option Nat
  newBundleFormat : Bool
  identities : List CosignIdentity
  trustedMaterial : TrustedMaterial
  sigVerifier : Option Nat

/-- A verified attestation (`oci.Signature`): its `Payload()` method either
yields the payload bytes or an error. -/
structure Attestation where
  payload : Except String Bytes

/-- `AttestationVerifier` — the provider's verifier state. -/
structure AttestationVerifier where
  useReferrers : Bool
  keychain : Keychain
  trustedRoot : TrustedMaterial

/-- The external world the provider calls into: base64 decoding, JSON decoding
of the secret-name list segment, the Kubernetes API, registry reference
parsing, and cosign verification. Each oracle is a pure function; `Except`
and `Option` model the fallibility of the underlying call.

`decodeSecretList` models `json.Unmarshal` of the raw secret-list segment
into a Go `[]string`: `.ok names` on success, `.error names` when Unmarshal
reports an error after leaving `names` in the destination slice — Go
partially populates a slice on element type errors (a segment such as
`["a",5]` leaves `["a",""]` behind), while a syntax-invalid segment leaves
the slice untouched, i.e. nil (`[]`). -/
structure World where
  decodeSecretList : String → Except (List String) (List String)
  b64decode : String → Option Bytes
  inClusterConfig : Except String K8sConfig
  newForConfig : K8sConfig → Except String K8sClient
  podNamespaceEnv : String
  getSecret : K8sClient → String → String → Except String K8sSecret
  newFromPullSecrets : List K8sSecret → Except String Keychain
  parseReference : String → Except String ImageRef
  verifyImageAttestations : ImageRef → CheckOpts → Except String (List Attestation)

/-! ## Attestation extraction (`verifier.go:extractSBOMFromAttestation`) -/

/-- The DSSE envelope struct the extractor unmarshals into. -/
structure DSSEEnvelope where
  payload : String
  payloadType : String
  signatures : List Json

/-- Unmarshal into the extractor's DSSE envelope struct. -/
def decodeEnvelope : Bytes → Option DSSEEnvelope
  | .raw _ => none
  | .json .null => some { payload := "", payloadType := "", signatures := [] }
  | .json (.obj fs) => do
    let payload ← decodeStringField fs "payload"
    let payloadType ← decodeStringField fs "payloadType"
    let signatures ← decodeArrayField fs "signatures"
    pure { payload := payload, payloadType := payloadType, signatures := signatures }
  | .json _ => none

/-- The in-toto statement struct (`_type`, `predicateType`, raw `predicate`).
`predicate = none` models an absent field (a nil `json.RawMessage`). -/
structure IntotoStatement where
  type : String
  predicateType : String
  predicate : Option Json

/-- Unmarshal into the in-toto statement struct. -/
def decodeStatement : Bytes → Option IntotoStatement
  | .raw _ => none
  | .json .null => some { type := "", predicateType := "", predicate := none }
  | .json (.obj fs) => do
    let ty ← decodeStringField fs "_type"
    let predicateType ← decodeStringField fs "predicateType"
    pure { type := ty, predicateType := predicateType, predicate := getField fs "predicate" }
  | .json _ => none

/-- `extractAndNormalizeSPDX` — unmarshal the raw predicate as an SPDX
document and normalize it. -/
def extractAndNormalizeSPDX (predicate : Option Json) : Except String UnifiedSBOM :=
  match predicate with
  | none => .error "failed to parse SPDX SBOM"
  | some j =>
    match decodeSPDXDocument j with
    | none => .error "failed to parse SPDX SBOM"
    | some sbom =>
      .ok { format := "spdx"
            packages := sbom.packages.map (fun pkg =>
              let license := if pkg.licenseConcluded = "" then pkg.licenseDeclared
                             else pkg.licenseConcluded
              { name := pkg.name, version := pkg.versionInfo,
                license := license, purl := "" }) }

/-- License resolution of `extractAndNormalizeCycloneDX`: first license entry
only, identifier before free-text name. -/
def cycloneDXLicenseOf (comp : CycloneDXComponent) : String :=
  match comp.licenses with
  | [] => ""
  | l :: _ =>
    if l.license.id ≠ "" then l.license.id
    else if l.license.name ≠ "" then l.license.name
    else ""

/-- `extractAndNormalizeCycloneDX` — unmarshal the raw predicate as a
CycloneDX BOM and normalize it. -/
def extractAndNormalizeCycloneDX (predicate : Option Json) : Except String UnifiedSBOM :=
  match predicate with
  | none => .error "failed to parse CycloneDX SBOM"
  | some j =>
    match decodeCycloneDXBOM j with
    | none => .error "failed to parse CycloneDX SBOM"
    | some sbom =>
      .ok { format := "cyclonedx"
            packages := sbom.components.map (fun comp =>
              { name := comp.name, version := comp.version,
                license := cycloneDXLicenseOf comp, purl := comp.purl }) }

/-- The optional DSSE unwrap at the top of `extractSBOMFromAttestation`:
if the bytes unmarshal as an envelope with a non-empty `payload`, the
base64-decoded payload replaces the attestation bytes; a base64 failure
there is fatal; otherwise the bytes pass through unchanged. -/
def unwrapDSSE (w : World) (attestation : Bytes) : Except String Bytes :=
  match decodeEnvelope attestation with
  | some env =>
    if env.payload ≠ "" then
      match w.b64decode env.payload with
      | none => .error "failed to decode DSSE payload"
      | some decodedPayload => .ok decodedPayload
    else .ok attestation
  | none => .ok attestation

/-- `extractSBOMFromAttestation` — optional DSSE unwrap, statement parse,
dispatch on the predicate type. `.ok none` is Go's `(nil, nil)`. -/
def extractSBOMFromAttestation (w : World) (attestation : Bytes) :
    Except String (Option UnifiedSBOM) :=
  match unwrapDSSE w attestation with
  | .error e => .error e
  | .ok att =>
    match decodeStatement att with
    | none => .error "failed to parse attestation statement"
    | some statement =>
      if statement.predicateType = "https://spdx.dev/Document" ∨
         statement.predicateType = "https://spdx.dev/Document/v2.3" ∨
         statement.predicateType = "spdx" then
        (extractAndNormalizeSPDX statement.predicate).map some
      else if statement.predicateType = "https://cyclonedx.org/bom" ∨
              statement.predicateType = "https://cyclonedx.org/schema" ∨
              statement.predicateType = "cyclonedx" then
        (extractAndNormalizeCycloneDX statement.predicate).map some
      else
        .ok none

/-- The recognized predicate-type strings of the extractor's switch. -/
def recognizedPredicateTypes : List String :=
  ["https://spdx.dev/Document", "https://spdx.dev/Document/v2.3", "spdx",
   "https://cyclonedx.org/bom", "https://cyclonedx.org/schema", "cyclonedx"]

/-! ## Orchestration (`verifier.go:VerifyAndExtractSBOMWithParams`) -/

/-- `createKeychainWithSecrets` — empty list short-circuits to the default
keychain; individual secret fetch failures are skipped; if no secret could be
fetched the default keychain is returned. -/
def createKeychainWithSecrets (v : AttestationVerifier) (w : World)
    (secretNames : List String) : Except String Keychain :=
  if secretNames.isEmpty then .ok v.keychain
  else
    match w.inClusterConfig with
    | .error e => .error ("failed to get in-cluster config: " ++ e)
    | .ok config =>
      match w.newForConfig config with
      | .error e => .error ("failed to create kubernetes client: " ++ e)
      | .ok clientset =>
        let ns := if w.podNamespaceEnv = "" then "default" else w.podNamespaceEnv
        let secrets := secretNames.filterMap (fun secretName =>
          match w.getSecret clientset ns secretName with
          | .error _ => none
          | .ok secret => some secret)
        if secrets.isEmpty then .ok v.keychain
        else
          match w.newFromPullSecrets secrets with
          | .error e => .error ("failed to create keychain from secrets: " ++ e)
          | .ok secretKeychain => .ok (.multi [secretKeychain, v.keychain])

/-- The keychain actually used: on `createKeychainWithSecrets` failure the
code falls back to the verifier's default keychain. -/
def resolvedKeychain (v : AttestationVerifier) (w : World)
    (secretNames : List String) : Keychain :=
  match createKeychainWithSecrets v w secretNames with
  | .error _ => v.keychain
  | .ok k => k

/-- The `cosign.CheckOpts` built for the first verification attempt. -/
def buildCheckOpts (v : AttestationVerifier) (keychain : Keychain)
    (certIdentity certOidcIssuer : String) : CheckOpts :=
  { registryKeychain := keychain
    claimVerifier := "IntotoSubjectClaimVerifier"
    ignoreTlog := false
    ignoreSCT := true
    experimentalOCI11 := v.useReferrers
    rekorPubKeys := none
    ctLogPubKeys := none
    newBundleFormat := true
    identities :=
      if certIdentity ≠ "" ∨ certOidcIssuer ≠ "" then
        [{ issuer := certOidcIssuer, subject := certIdentity }]
      else []
    trustedMaterial := v.trustedRoot
    sigVerifier := none }

/-- The mutation applied before the legacy retry: both newer-protocol flags
are turned off. -/
def legacyFallbackOpts (opts : CheckOpts) : CheckOpts :=
  { opts with experimentalOCI11 := false, newBundleFormat := false }

/-- The per-attestation extraction loop of `VerifyAndExtractSBOMWithParams`:
payload errors and extraction errors skip the attestation, the first non-nil
SBOM is returned, and an exhausted list is an error. -/
def extractLoop (w : World) : List Attestation → Except String UnifiedSBOM
  | [] => .error "no SBOM found in attestations"
  | att :: rest =>
    match att.payload with
    | .error _ => extractLoop w rest
    | .ok payload =>
      match extractSBOMFromAttestation w payload with
      | .error _ => extractLoop w rest
      | .ok none => extractLoop w rest
      | .ok (some sbom) => .ok sbom

/-- The steps after a successful fetch: an empty verified set is an error,
otherwise the extraction loop runs. -/
def afterFetch (w : World) (attestations : List Attestation) : Except String UnifiedSBOM :=
  if attestations.length = 0 then .error "no attestations found"
  else extractLoop w attestations

/-- The body of `VerifyAndExtractSBOMWithParams` after key parsing: keychain
resolution (with default fallback), image-reference parsing, the modern
verification attempt, the single legacy retry on error, then extraction. -/
def verifyCore (v : AttestationVerifier) (w : World) (imageRef : String)
    (secretNames : List String) (certIdentity certOidcIssuer : String) :
    Except String UnifiedSBOM :=
  let keychain := resolvedKeychain v w secretNames
  match w.parseReference imageRef with
  | .error e => .error ("failed to parse image reference: " ++ e)
  | .ok ref =>
    let checkOpts := buildCheckOpts v keychain certIdentity certOidcIssuer
    match w.verifyImageAttestations ref checkOpts with
    | .ok attestations => afterFetch w attestations
    | .error _ =>
      match w.verifyImageAttestations ref (legacyFallbackOpts checkOpts) with
      | .error fetchErr => .error ("failed to fetch/verify attestations: " ++ fetchErr)
      | .ok attestations => afterFetch w attestations

/-- `strings.SplitN(key, "|", 4)`. -/
def keyParts (key : String) : List String :=
  goSplitN key '|' 4

/-- `parts[0]` — always present since `SplitN` returns at least one part. -/
def keyImageRef (key : String) : String :=
  (keyParts key).headD ""

/-- The secret names decoded from `parts[1]`: an absent or empty segment
leaves the list empty; on an unmarshal error the code only logs a warning,
so the key proceeds with whatever the failed unmarshal left in the slice
(the nil slice, hence `[]`, for a syntax-invalid segment; a partially
populated list for a valid-JSON segment with wrong-typed elements). -/
def keySecretNames (w : World) (key : String) : List String :=
  match (keyParts key).get? 1 with
  | none => []
  | some seg =>
    if seg ≠ "" then
      match w.decodeSecretList seg with
      | .ok names => names
      | .error names => names
    else []

/-- The certificate identity: the key's `parts[2]` is used only when the
caller-supplied parameter is empty. -/
def keyCertIdentity (key certIdentity : String) : String :=
  if certIdentity = "" ∧ (keyParts key).length ≥ 3 then (keyParts key).getD 2 ""
  else certIdentity

/-- The OIDC issuer: the key's `parts[3]` is used only when the
caller-supplied parameter is empty. -/
def keyCertOidcIssuer (key certOidcIssuer : String) : String :=
  if certOidcIssuer = "" ∧ (keyParts key).length ≥ 4 then (keyParts key).getD 3 ""
  else certOidcIssuer

/-- `VerifyAndExtractSBOMWithParams` — parse the composite key, then run the
verification/extraction pipeline. -/
def VerifyAndExtractSBOMWithParams (v : AttestationVerifier) (w : World)
    (key certIdentity certOidcIssuer : String) : Except String UnifiedSBOM :=
  verifyCore v w (keyImageRef key) (keySecretNames w key)
    (keyCertIdentity key certIdentity) (keyCertOidcIssuer key certOidcIssuer)

/-! ## Response serialization and the server (`server.go`) -/

/-- Minimal Go-style JSON string escaping (backslash, quote, and the common
control characters; sufficient for the modelled output). -/
def escapeJSONChar (c : Char) : String :=
  if c = '\\' then "\\\\"
  else if c = '"' then "\\\""
  else if c = '\n' then "\\n"
  else if c = '\r' then "\\r"
  else if c = '\t' then "\\t"
  else String.mk [c]

/-- Render a string as a quoted JSON string literal. -/
def quoteJSON (s : String) : String :=
  "\"" ++ String.join (s.data.map escapeJSONChar) ++ "\""

/-- The key/value fields `encoding/json` emits for a `UnifiedPackage`:
`purl` carries `omitempty`, so it is omitted when empty. -/
def packageFields (p : UnifiedPackage) : List (String × String) :=
  [("name", p.name), ("versionInfo", p.version), ("licenseConcluded", p.license)]
    ++ (if p.purl = "" then [] else [("purl", p.purl)])

/-- Render a field list as a JSON object. -/
def renderObj (fs : List (String × String)) : String :=
  "\x7b" ++ String.intercalate ","
    (fs.map (fun f => quoteJSON f.1 ++ ":" ++ quoteJSON f.2)) ++ "\x7d"

/-- `json.Marshal` of a `UnifiedPackage`. -/
def marshalUnifiedPackage (p : UnifiedPackage) : String :=
  renderObj (packageFields p)

/-- `json.Marshal` of a `UnifiedSBOM`. -/
def marshalUnifiedSBOM (u : UnifiedSBOM) : String :=
  "\x7b\"format\":" ++ quoteJSON u.format ++ ",\"packages\":[" ++
    String.intercalate "," (u.packages.map marshalUnifiedPackage) ++ "]\x7d"

/-- The server state the modelled handlers use. -/
structure Server where
  port : String
  verifier : AttestationVerifier

/-- `processImageRef` — process one lookup key into a response `Item`:
a verification error yields an error item, success yields a value item
holding the marshalled SBOM. -/
def processImageRef (s : Server) (w : World) (imageRef : String) : Item :=
  let parts := goSplit imageRef '|'
  let certIdentity := if parts.length ≥ 4 then parts.getD 2 "" else ""
  let certOidcIssuer := if parts.length ≥ 4 then parts.getD 3 "" else ""
  match VerifyAndExtractSBOMWithParams s.verifier w imageRef certIdentity certOidcIssuer with
  | .error e =>
    { key := imageRef, value := "",
      error := "Failed to verify attestation or extract SBOM: " ++ e }
  | .ok sbomData =>
    { key := imageRef, value := marshalUnifiedSBOM sbomData, error := "" }

/-- The item list `handleVerify` builds: one `processImageRef` result per
request key, in order. -/
def handleVerifyItems (s : Server) (w : World) (keys : List String) : List Item :=
  keys.map (processImageRef s w)

/-! ## Helper lemmas -/

theorem string_append_ne_empty_of_left (a b : String) (ha : a.length ≠ 0) :
    a ++ b ≠ "" := by
  intro h
  have := congrArg String.length h
  rw [String.length_append] at this
  simp at this
  exact ha this.1

theorem marshalUnifiedSBOM_ne_empty (u : UnifiedSBOM) : marshalUnifiedSBOM u ≠ "" := by
  intro h
  have hlen := congrArg String.length h
  rw [marshalUnifiedSBOM] at hlen
  simp only [String.length_append] at hlen
  have h1 : ("\x7b\"format\":" : String).length = 10 := by decide
  have h0 : ("" : String).length = 0 := by decide
  rw [h1, h0] at hlen
  omega

/-! ## C4 — SPDX normalization: one package per package, document order,
license precedence -/

/-- C4: normalizing a decoded SPDX document produces exactly one
`UnifiedPackage` per SPDX package, in document order with no deduplication;
each output license is `licenseConcluded` when non-empty, else
`licenseDeclared` when non-empty, else the empty string. -/
theorem spdx_normalization_maps_packages_in_order (j : Json) (doc : SPDXDocument)
    (h : decodeSPDXDocument j = some doc) :
    ∃ u, extractAndNormalizeSPDX (some j) = .ok u ∧
      u.format = "spdx" ∧
      u.packages.length = doc.packages.length ∧
      ∀ (i : Nat) (pkg : SPDXPackage), doc.packages[i]? = some pkg →
        u.packages[i]? = some
          { name := pkg.name
            version := pkg.versionInfo
            license :=
              if pkg.licenseConcluded ≠ "" then pkg.licenseConcluded
              else if pkg.licenseDeclared ≠ "" then pkg.licenseDeclared
              else ""
            purl := "" } := by
  simp only [extractAndNormalizeSPDX, h]
  refine ⟨_, rfl, rfl, by simp, ?_⟩
  intro i pkg hpkg
  simp only [List.getElem?_map, hpkg, Option.map_some']
  by_cases hc : pkg.licenseConcluded = "" <;> by_cases hd : pkg.licenseDeclared = "" <;>
    simp [hc, hd]

/-- A concrete SPDX predicate exercising both license-precedence branches
(the spec's own examples) and an external reference. -/
def spdxPredicateC4 : Json :=
  .obj [("SPDXID", .str "SPDXRef-DOCUMENT"),
        ("spdxVersion", .str "SPDX-2.3"),
        ("name", .str "test"),
        ("packages", .arr
          [.obj [("name", .str "pkg-a"), ("versionInfo", .str "1.0"),
                 ("licenseConcluded", .str ""), ("licenseDeclared", .str "BSD-3-Clause")],
           .obj [("name", .str "pkg-b"), ("versionInfo", .str "2.0"),
                 ("licenseConcluded", .str "Apache-2.0"), ("licenseDeclared", .str "MIT"),
                 ("externalRefs", .arr
                   [.obj [("referenceCategory", .str "PACKAGE-MANAGER"),
                          ("referenceType", .str "purl"),
                          ("referenceLocator", .str "pkg:golang/b@2.0")]])]])]

/-- The SPDX document `spdxPredicateC4` unmarshals to. -/
def spdxDocC4 : SPDXDocument :=
  { spdxid := "SPDXRef-DOCUMENT", spdxVersion := "SPDX-2.3",
    creationInfo := { created := "", creators := [] },
    name := "test", dataLicense := "", documentNamespace := "",
    packages :=
      [{ spdxid := "", name := "pkg-a", versionInfo := "1.0", supplier := "",
         downloadLocation := "", filesAnalyzed := false, licenseConcluded := "",
         licenseDeclared := "BSD-3-Clause", copyrightText := "", externalRefs := [] },
       { spdxid := "", name := "pkg-b", versionInfo := "2.0", supplier := "",
         downloadLocation := "", filesAnalyzed := false, licenseConcluded := "Apache-2.0",
         licenseDeclared := "MIT", copyrightText := "",
         externalRefs := [{ referenceCategory := "PACKAGE-MANAGER",
                            referenceType := "purl",
                            referenceLocator := "pkg:golang/b@2.0" }] }] }

/-- C4 witness: the theorem applied at the concrete document above. -/
theorem spdx_normalization_maps_packages_in_order_witness :
    ∃ u, extractAndNormalizeSPDX (some spdxPredicateC4) = .ok u ∧
      u.format = "spdx" ∧
      u.packages.length = spdxDocC4.packages.length ∧
      ∀ (i : Nat) (pkg : SPDXPackage), spdxDocC4.packages[i]? = some pkg →
        u.packages[i]? = some
          { name := pkg.name
            version := pkg.versionInfo
            license :=
              if pkg.licenseConcluded ≠ "" then pkg.licenseConcluded
              else if pkg.licenseDeclared ≠ "" then pkg.licenseDeclared
              else ""
            purl := "" } :=
  spdx_normalization_maps_packages_in_order spdxPredicateC4 spdxDocC4 (by decide)

/-! ## C5 — CycloneDX normalization: license from the first entry only -/

/-- C5: normalizing a decoded CycloneDX BOM produces one `UnifiedPackage` per
component, in order; the license comes from the first license entry only —
its identifier when non-empty, else its name when non-empty, else the empty
string — and an empty license list gives the empty string. -/
theorem cyclonedx_license_from_first_entry_only (j : Json) (bom : CycloneDXBOM)
    (h : decodeCycloneDXBOM j = some bom) :
    ∃ u, extractAndNormalizeCycloneDX (some j) = .ok u ∧
      u.format = "cyclonedx" ∧
      u.packages.length = bom.components.length ∧
      ∀ (i : Nat) (comp : CycloneDXComponent), bom.components[i]? = some comp →
        u.packages[i]? = some
          { name := comp.name
            version := comp.version
            license :=
              match comp.licenses.head? with
              | none => ""
              | some entry =>
                if entry.license.id ≠ "" then entry.license.id
                else if entry.license.name ≠ "" then entry.license.name
                else ""
            purl := comp.purl } := by
  simp only [extractAndNormalizeCycloneDX, h]
  refine ⟨_, rfl, rfl, by simp, ?_⟩
  intro i comp hcomp
  simp only [List.getElem?_map, hcomp, Option.map_some']
  cases hl : comp.licenses with
  | nil => simp [cycloneDXLicenseOf, hl]
  | cons entry rest => simp [cycloneDXLicenseOf, hl]

/-- A concrete CycloneDX predicate exercising all license branches
(the spec's own examples). -/
def cyclonedxPredicateC5 : Json :=
  .obj [("bomFormat", .str "CycloneDX"),
        ("specVersion", .str "1.4"),
        ("version", .num 1),
        ("components", .arr
          [.obj [("type", .str "library"), ("name", .str "express"),
                 ("version", .str "4.18.2"), ("purl", .str "pkg:npm/express@4.18.2"),
                 ("licenses", .arr
                   [.obj [("license", .obj [("id", .str "MIT"),
                                            ("name", .str "MIT License")])]])],
           .obj [("type", .str "library"), ("name", .str "custom"),
                 ("licenses", .arr
                   [.obj [("license", .obj [("name", .str "Custom License")])]])],
           .obj [("type", .str "library"), ("name", .str "bare")]])]

/-- The CycloneDX BOM `cyclonedxPredicateC5` unmarshals to. -/
def cyclonedxBomC5 : CycloneDXBOM :=
  { bomFormat := "CycloneDX", specVersion := "1.4", version := 1,
    metadata := { timestamp := "" },
    components :=
      [{ type := "library", name := "express", version := "4.18.2",
         purl := "pkg:npm/express@4.18.2",
         licenses := [{ license := { id := "MIT", name := "MIT License" } }],
         hashes := [] },
       { type := "library", name := "custom", version := "", purl := "",
         licenses := [{ license := { id := "", name := "Custom License" } }],
         hashes := [] },
       { type := "library", name := "bare", version := "", purl := "",
         licenses := [], hashes := [] }] }

/-- C5 witness: the theorem applied at the concrete BOM above. -/
theorem cyclonedx_license_from_first_entry_only_witness :
    ∃ u, extractAndNormalizeCycloneDX (some cyclonedxPredicateC5) = .ok u ∧
      u.format = "cyclonedx" ∧
      u.packages.length = cyclonedxBomC5.components.length ∧
      ∀ (i : Nat) (comp : CycloneDXComponent), cyclonedxBomC5.components[i]? = some comp →
        u.packages[i]? = some
          { name := comp.name
            version := comp.version
            license :=
              match comp.licenses.head? with
              | none => ""
              | some entry =>
                if entry.license.id ≠ "" then entry.license.id
                else if entry.license.name ≠ "" then entry.license.name
                else ""
            purl := comp.purl } :=
  cyclonedx_license_from_first_entry_only cyclonedxPredicateC5 cyclonedxBomC5 (by rfl)

/-! ## C10 — only CycloneDX normalization populates `purl` -/

/-- C10: every package an SPDX document normalizes to has an empty `purl`
(even when the SPDX package carries external references), and the serializer
emits a `purl` field exactly when `purl` is non-empty — so a `purl` field can
appear in the output only for the CycloneDX format. -/
theorem purl_only_from_cyclonedx :
    (∀ (predicate : Option Json) (u : UnifiedSBOM),
       extractAndNormalizeSPDX predicate = .ok u →
       ∀ p ∈ u.packages, p.purl = "") ∧
    (∀ p : UnifiedPackage, "purl" ∈ (packageFields p).map Prod.fst ↔ p.purl ≠ "") := by
  constructor
  · intro predicate u hu p hp
    match predicate with
    | none => simp [extractAndNormalizeSPDX] at hu
    | some j =>
      simp only [extractAndNormalizeSPDX] at hu
      match hdoc : decodeSPDXDocument j with
      | none => rw [hdoc] at hu; cases hu
      | some doc =>
        rw [hdoc] at hu
        cases hu
        simp only [List.mem_map] at hp
        obtain ⟨pkg, _, hpkg⟩ := hp
        rw [← hpkg]
  · intro p
    by_cases h : p.purl = "" <;> simp [packageFields, h]

/-- C10 witness: at the concrete SPDX document of C4, the first normalized
package has an empty `purl` and no `purl` field is emitted for it. -/
theorem purl_only_from_cyclonedx_witness :
    (∀ p ∈ [UnifiedPackage.mk "pkg-a" "1.0" "BSD-3-Clause" "",
            UnifiedPackage.mk "pkg-b" "2.0" "Apache-2.0" ""], p.purl = "") ∧
    ("purl" ∈ (packageFields (UnifiedPackage.mk "pkg-a" "1.0" "BSD-3-Clause" "")).map
        Prod.fst ↔ (UnifiedPackage.mk "pkg-a" "1.0" "BSD-3-Clause" "").purl ≠ "") :=
  ⟨purl_only_from_cyclonedx.1 (some spdxPredicateC4)
      { format := "spdx",
        packages := [UnifiedPackage.mk "pkg-a" "1.0" "BSD-3-Clause" "",
                     UnifiedPackage.mk "pkg-b" "2.0" "Apache-2.0" ""] } (by rfl),
   purl_only_from_cyclonedx.2 (UnifiedPackage.mk "pkg-a" "1.0" "BSD-3-Clause" "")⟩

/-! ## C6 — unrecognized predicate types are not errors -/

/-- C6: when the (possibly unwrapped) payload parses as an in-toto statement
whose predicate type is outside the recognized fixed set, the extractor
returns no SBOM and no error (`.ok none`); a statement-parse failure instead
returns an error. -/
theorem unrecognized_predicate_type_yields_no_sbom_no_error (w : World) :
    (∀ (b b' : Bytes) (stmt : IntotoStatement),
       unwrapDSSE w b = .ok b' → decodeStatement b' = some stmt →
       stmt.predicateType ∉ recognizedPredicateTypes →
       extractSBOMFromAttestation w b = .ok none) ∧
    (∀ b b' : Bytes, unwrapDSSE w b = .ok b' → decodeStatement b' = none →
       extractSBOMFromAttestation w b = .error "failed to parse attestation statement") := by
  constructor
  · intro b b' stmt h1 h2 h3
    simp only [recognizedPredicateTypes, List.mem_cons, List.not_mem_nil, or_false,
      not_or] at h3
    obtain ⟨n1, n2, n3, n4, n5, n6⟩ := h3
    simp [extractSBOMFromAttestation, h1, h2, n1, n2, n3, n4, n5, n6]
  · intro b b' h1 h2
    simp [extractSBOMFromAttestation, h1, h2]

/-- A statement whose predicate type is outside the recognized set. -/
def stmtUnknownType : Bytes :=
  .json (.obj [("_type", .str "https://in-toto.io/Statement/v0.1"),
               ("predicateType", .str "https://example.com/unknown"),
               ("predicate", .obj [])])

/-- A fixed concrete world for witnesses: base64 decoding rejects everything,
the secret-list decoder accepts only the literal "[]" (leaving the nil slice
on any other input, as a syntax error does), the cluster is unreachable,
reference parsing succeeds, and verification always fails. -/
def wTest : World :=
  { decodeSecretList := fun s => if s = "[]" then .ok [] else .error []
    b64decode := fun _ => none
    inClusterConfig := .error "unit test"
    newForConfig := fun _ => .error "unit test"
    podNamespaceEnv := ""
    getSecret := fun _ _ _ => .error "unit test"
    newFromPullSecrets := fun _ => .error "unit test"
    parseReference := fun s => .ok ⟨s⟩
    verifyImageAttestations := fun _ _ => .error "no matching attestations" }

/-- C6 witness: the theorem applied at a concrete unknown-type statement and
at concrete unparseable bytes. -/
theorem unrecognized_predicate_type_yields_no_sbom_no_error_witness :
    extractSBOMFromAttestation wTest stmtUnknownType = .ok none ∧
    extractSBOMFromAttestation wTest (.raw "not json") =
      .error "failed to parse attestation statement" :=
  ⟨(unrecognized_predicate_type_yields_no_sbom_no_error wTest).1 stmtUnknownType
      stmtUnknownType
      { type := "https://in-toto.io/Statement/v0.1",
        predicateType := "https://example.com/unknown",
        predicate := some (.obj []) }
      (by rfl) (by rfl) (by decide),
   (unrecognized_predicate_type_yields_no_sbom_no_error wTest).2 (.raw "not json")
      (.raw "not json") (by rfl) (by rfl)⟩

/-! ## C9 — DSSE envelope wrap round-trip -/

/-- The DSSE envelope the round-trip wraps a statement in: the base64 text of
the statement bytes in `payload`, the in-toto payload type, no signatures. -/
def dsseWrapped (enc : String) : Bytes :=
  .json (.obj [("payload", .str enc),
               ("payloadType", .str "application/vnd.in-toto+json"),
               ("signatures", .arr [])])

/-- An in-toto statement that itself carries a top-level `payload` string
field (legal JSON, unusual but possible). -/
def stmtWithPayloadField : Json :=
  .obj [("_type", .str "https://in-toto.io/Statement/v0.1"),
        ("predicateType", .str "spdx"),
        ("predicate", .obj [("packages", .arr [])]),
        ("payload", .str "xx")]

/-- An ordinary in-toto statement with no `payload` field. -/
def stmtPlain : Json :=
  .obj [("_type", .str "https://in-toto.io/Statement/v0.1"),
        ("predicateType", .str "spdx"),
        ("predicate", .obj [("packages", .arr [])])]

/-- A world whose base64 decoder knows the encodings of the two statements
above and rejects everything else (in particular the two-character string
"xx", which is not valid base64). -/
def wC9 : World :=
  { wTest with
    b64decode := fun s =>
      if s = "c3RtdA==" then some (.json stmtWithPayloadField)
      else if s = "cGxhaW4=" then some (.json stmtPlain)
      else none }

/-- C9 counterexample: a statement that itself unmarshals as a DSSE envelope
with a non-empty `payload` field. Bare extraction base64-decodes that field
and fails; extraction of the wrapped form succeeds — the two runs are not
identical, refuting the round-trip as universally stated. -/
theorem dsse_roundtrip_counterexample :
    decodeStatement (.json stmtWithPayloadField) =
      some { type := "https://in-toto.io/Statement/v0.1", predicateType := "spdx",
             predicate := some (.obj [("packages", .arr [])]) } ∧
    wC9.b64decode "c3RtdA==" = some (.json stmtWithPayloadField) ∧
    extractSBOMFromAttestation wC9 (dsseWrapped "c3RtdA==") =
      .ok (some { format := "spdx", packages := [] }) ∧
    extractSBOMFromAttestation wC9 (.json stmtWithPayloadField) =
      .error "failed to decode DSSE payload" ∧
    extractSBOMFromAttestation wC9 (dsseWrapped "c3RtdA==") ≠
      extractSBOMFromAttestation wC9 (.json stmtWithPayloadField) := by
  have hA : extractSBOMFromAttestation wC9 (dsseWrapped "c3RtdA==") =
      .ok (some { format := "spdx", packages := [] }) := by rfl
  have hB : extractSBOMFromAttestation wC9 (.json stmtWithPayloadField) =
      .error "failed to decode DSSE payload" := by rfl
  exact ⟨by rfl, by rfl, hA, hB, by simp [hA, hB]⟩

/-- C9 amended: for every in-toto statement on which the DSSE unwrap step is
the identity (in particular any statement without a non-empty top-level
`payload` string field), extracting the statement wrapped in a base64 DSSE
envelope and extracting the bare statement produce identical output. -/
theorem dsse_wrap_roundtrip_for_non_enveloped_statements (w : World) (j : Json)
    (enc : String)
    (henc : enc ≠ "")
    (hdec : w.b64decode enc = some (.json j))
    (hself : unwrapDSSE w (.json j) = .ok (.json j)) :
    extractSBOMFromAttestation w (dsseWrapped enc) =
      extractSBOMFromAttestation w (.json j) := by
  have hunwrap : unwrapDSSE w (dsseWrapped enc) = .ok (.json j) := by
    simp [unwrapDSSE, dsseWrapped, decodeEnvelope, decodeStringField, decodeArrayField,
      getField, henc, hdec]
  simp only [extractSBOMFromAttestation, hunwrap, hself]

/-- C9 witness: the amended theorem applied at the ordinary statement
`stmtPlain` and its encoding. -/
theorem dsse_wrap_roundtrip_for_non_enveloped_statements_witness :
    extractSBOMFromAttestation wC9 (dsseWrapped "cGxhaW4=") =
      extractSBOMFromAttestation wC9 (.json stmtPlain) :=
  dsse_wrap_roundtrip_for_non_enveloped_statements wC9 stmtPlain "cGxhaW4="
    (by decide) (by rfl) (by rfl)

/-! ## C2 — first attestation yielding an SBOM wins -/

/-- What one attestation contributes in the extraction loop: `none` when the
payload fetch errors, the extraction errors, or the extraction returns no
SBOM; `some s` when it yields the SBOM `s`. -/
def attYields (w : World) (a : Attestation) : Option UnifiedSBOM :=
  match a.payload with
  | .error _ => none
  | .ok p =>
    match extractSBOMFromAttestation w p with
    | .error _ => none
    | .ok o => o

theorem attYields_step (w : World) (a : Attestation) (rest : List Attestation) :
    extractLoop w (a :: rest) =
      match attYields w a with
      | some s => .ok s
      | none => extractLoop w rest := by
  cases hp : a.payload with
  | error e => simp [extractLoop, attYields, hp]
  | ok p =>
    cases he : extractSBOMFromAttestation w p with
    | error e => simp [extractLoop, attYields, hp, he]
    | ok o => cases o <;> simp [extractLoop, attYields, hp, he]

theorem extractLoop_first (w : World) :
    ∀ (atts : List Attestation) (i : Nat) (hi : i < atts.length) (s : UnifiedSBOM),
      attYields w (atts.get ⟨i, hi⟩) = some s →
      (∀ (j : Nat) (hj : j < i), attYields w (atts.get ⟨j, Nat.lt_trans hj hi⟩) = none) →
      extractLoop w atts = .ok s := by
  intro atts
  induction atts with
  | nil => intro i hi; exact absurd hi (by simp)
  | cons a rest ih =>
    intro i hi s hy hprev
    cases i with
    | zero =>
      rw [attYields_step]
      simp only [List.get] at hy
      rw [hy]
    | succ i' =>
      have h0 : attYields w a = none := by simpa using hprev 0 (Nat.succ_pos i')
      rw [attYields_step, h0]
      refine ih i' (Nat.lt_of_succ_lt_succ (by simpa using hi)) s (by simpa using hy) ?_
      intro j hj
      simpa using hprev (j + 1) (Nat.succ_lt_succ hj)

theorem extractLoop_all_none (w : World) :
    ∀ atts : List Attestation,
      (∀ (i : Nat) (hi : i < atts.length), attYields w (atts.get ⟨i, hi⟩) = none) →
      extractLoop w atts = .error "no SBOM found in attestations" := by
  intro atts
  induction atts with
  | nil => intro _; rfl
  | cons a rest ih =>
    intro h
    have h0 : attYields w a = none := by simpa using h 0 (Nat.succ_pos _)
    rw [attYields_step, h0]
    exact ih (fun i hi => by simpa using h (i + 1) (Nat.succ_lt_succ hi))

/-- C2: the loop returns the first attestation (in set order) that yields a
non-nil SBOM, skipping every earlier attestation whose payload fetch or
extraction fails or yields nothing; if no attestation yields an SBOM the key
fails with "no SBOM found in attestations". -/
theorem first_sbom_attestation_wins (w : World) (atts : List Attestation) :
    (∀ (i : Nat) (hi : i < atts.length) (s : UnifiedSBOM),
       attYields w (atts.get ⟨i, hi⟩) = some s →
       (∀ (j : Nat) (hj : j < i), attYields w (atts.get ⟨j, Nat.lt_trans hj hi⟩) = none) →
       extractLoop w atts = .ok s) ∧
    ((∀ (i : Nat) (hi : i < atts.length), attYields w (atts.get ⟨i, hi⟩) = none) →
     extractLoop w atts = .error "no SBOM found in attestations") :=
  ⟨fun i hi s hy hprev => extractLoop_first w atts i hi s hy hprev,
   fun h => extractLoop_all_none w atts h⟩

/-- An attestation whose payload fetch fails. -/
def attPayloadErr : Attestation := ⟨.error "payload unavailable"⟩

/-- An attestation carrying a statement with an unrecognized predicate type. -/
def attUnknown : Attestation := ⟨.ok stmtUnknownType⟩

/-- An attestation carrying a minimal SPDX statement. -/
def attSPDX : Attestation :=
  ⟨.ok (.json (.obj [("_type", .str "https://in-toto.io/Statement/v0.1"),
                     ("predicateType", .str "spdx"),
                     ("predicate", .obj [("packages", .arr [])])]))⟩

/-- C2 witness: with a failing payload and an unrecognized type before the
SPDX attestation, the loop returns the SPDX attestation's SBOM; without it,
the loop fails with "no SBOM found in attestations". -/
theorem first_sbom_attestation_wins_witness :
    extractLoop wTest [attPayloadErr, attUnknown, attSPDX] =
      .ok { format := "spdx", packages := [] } ∧
    extractLoop wTest [attPayloadErr, attUnknown] =
      .error "no SBOM found in attestations" :=
  ⟨(first_sbom_attestation_wins wTest [attPayloadErr, attUnknown, attSPDX]).1 2
      (by decide) { format := "spdx", packages := [] } (by rfl)
      (fun j hj => by interval_cases j <;> rfl),
   (first_sbom_attestation_wins wTest [attPayloadErr, attUnknown]).2
      (fun i hi => by
        have h2 : i < 2 := by simpa using hi
        interval_cases i <;> rfl)⟩

/-! ## C1 — modern failure triggers exactly one legacy retry, legacy error
surfaces -/

/-- C1: when the first (modern) verification attempt returns an error, the
code retries once with both newer-protocol feature flags
(`ExperimentalOCI11`, `NewBundleFormat`) disabled; when that legacy attempt
also errors, the key fails with the legacy attempt's error — not the modern
one — wrapped as "failed to fetch/verify attestations". The theorem holds
for every world agreeing with the two hypotheses, so no verification call
beyond these two can influence the result. -/
theorem legacy_retry_disables_flags_and_surfaces_legacy_error
    (v : AttestationVerifier) (w : World) (key ci co : String) (ref : ImageRef)
    (e1 e2 : String)
    (href : w.parseReference (keyImageRef key) = .ok ref)
    (h1 : w.verifyImageAttestations ref
        (buildCheckOpts v (resolvedKeychain v w (keySecretNames w key))
          (keyCertIdentity key ci) (keyCertOidcIssuer key co)) = .error e1)
    (h2 : w.verifyImageAttestations ref
        (legacyFallbackOpts
          (buildCheckOpts v (resolvedKeychain v w (keySecretNames w key))
            (keyCertIdentity key ci) (keyCertOidcIssuer key co))) = .error e2) :
    VerifyAndExtractSBOMWithParams v w key ci co =
      .error ("failed to fetch/verify attestations: " ++ e2) ∧
    (legacyFallbackOpts
      (buildCheckOpts v (resolvedKeychain v w (keySecretNames w key))
        (keyCertIdentity key ci) (keyCertOidcIssuer key co))).experimentalOCI11 = false ∧
    (legacyFallbackOpts
      (buildCheckOpts v (resolvedKeychain v w (keySecretNames w key))
        (keyCertIdentity key ci) (keyCertOidcIssuer key co))).newBundleFormat = false := by
  refine ⟨?_, rfl, rfl⟩
  simp only [VerifyAndExtractSBOMWithParams, verifyCore, href, h1, h2]

/-- The verifier instance used by concrete witnesses. -/
def vTest : AttestationVerifier :=
  { useReferrers := true, keychain := .base 0, trustedRoot := ⟨0⟩ }

/-- A world whose verifier rejects the modern attempt (recognizable by
`newBundleFormat = true`) with one error and the legacy attempt with
another. -/
def wC1 : World :=
  { wTest with
    verifyImageAttestations := fun _ opts =>
      if opts.newBundleFormat then .error "referrers API unsupported"
      else .error "no signatures found" }

/-- C1 witness: both attempts fail; the result wraps the legacy error, not
the modern one. -/
theorem legacy_retry_disables_flags_and_surfaces_legacy_error_witness :
    VerifyAndExtractSBOMWithParams vTest wC1 "ghcr.io/org/img:v1" "" "" =
      .error ("failed to fetch/verify attestations: " ++ "no signatures found") ∧
    (legacyFallbackOpts
      (buildCheckOpts vTest (resolvedKeychain vTest wC1 (keySecretNames wC1 "ghcr.io/org/img:v1"))
        (keyCertIdentity "ghcr.io/org/img:v1" "") (keyCertOidcIssuer "ghcr.io/org/img:v1" ""))).experimentalOCI11
        = false ∧
    (legacyFallbackOpts
      (buildCheckOpts vTest (resolvedKeychain vTest wC1 (keySecretNames wC1 "ghcr.io/org/img:v1"))
        (keyCertIdentity "ghcr.io/org/img:v1" "") (keyCertOidcIssuer "ghcr.io/org/img:v1" ""))).newBundleFormat
        = false :=
  legacy_retry_disables_flags_and_surfaces_legacy_error vTest wC1 "ghcr.io/org/img:v1" "" ""
    ⟨"ghcr.io/org/img:v1"⟩ "referrers API unsupported" "no signatures found"
    (by rfl) (by rfl) (by rfl)

/-! ## C3 — an empty verified attestation set is a failure -/

/-- C3: when verification succeeds (on either the modern attempt or the
legacy retry) but returns zero attestations, the key fails with
"no attestations found"; an empty set never produces a success result. -/
theorem empty_verified_attestation_set_fails
    (v : AttestationVerifier) (w : World) (key ci co : String) (ref : ImageRef)
    (href : w.parseReference (keyImageRef key) = .ok ref) :
    (w.verifyImageAttestations ref
        (buildCheckOpts v (resolvedKeychain v w (keySecretNames w key))
          (keyCertIdentity key ci) (keyCertOidcIssuer key co)) = .ok [] →
       VerifyAndExtractSBOMWithParams v w key ci co = .error "no attestations found") ∧
    (∀ e1 : String,
       w.verifyImageAttestations ref
         (buildCheckOpts v (resolvedKeychain v w (keySecretNames w key))
           (keyCertIdentity key ci) (keyCertOidcIssuer key co)) = .error e1 →
       w.verifyImageAttestations ref
         (legacyFallbackOpts
           (buildCheckOpts v (resolvedKeychain v w (keySecretNames w key))
             (keyCertIdentity key ci) (keyCertOidcIssuer key co))) = .ok [] →
       VerifyAndExtractSBOMWithParams v w key ci co = .error "no attestations found") := by
  constructor
  · intro h
    simp only [VerifyAndExtractSBOMWithParams, verifyCore, href, h, afterFetch]
    rfl
  · intro e1 h1 h2
    simp only [VerifyAndExtractSBOMWithParams, verifyCore, href, h1, h2, afterFetch]
    rfl

/-- A world whose verifier succeeds with an empty attestation set. -/
def wC3 : World :=
  { wTest with verifyImageAttestations := fun _ _ => .ok [] }

/-- A world whose verifier errors on the modern attempt and returns an empty
set on the legacy retry. -/
def wC3b : World :=
  { wTest with
    verifyImageAttestations := fun _ opts =>
      if opts.newBundleFormat then .error "referrers API unsupported" else .ok [] }

/-- C3 witness: both success paths to an empty set end in
"no attestations found" at concrete inputs. -/
theorem empty_verified_attestation_set_fails_witness :
    VerifyAndExtractSBOMWithParams vTest wC3 "img-b" "" "" =
      .error "no attestations found" ∧
    VerifyAndExtractSBOMWithParams vTest wC3b "img-b" "" "" =
      .error "no attestations found" :=
  ⟨(empty_verified_attestation_set_fails vTest wC3 "img-b" "" "" ⟨"img-b"⟩ (by rfl)).1
      (by rfl),
   (empty_verified_attestation_set_fails vTest wC3b "img-b" "" "" ⟨"img-b"⟩ (by rfl)).2
      "referrers API unsupported" (by rfl) (by rfl)⟩

/-! ## C8 — a malformed secret-list segment is a soft failure, but the list
is not always empty -/

/-- A world modelling Go's `json.Unmarshal` behavior on the two malformed
segments the C8 theorems use — the valid-JSON segment `["a",5]` errors after
partially populating the slice with `["a",""]`, the syntax-invalid segment
"not-json" errors leaving the nil slice — with a reachable cluster that
holds a secret named "a". -/
def wC8 : World :=
  { wTest with
    decodeSecretList := fun s =>
      if s = "[\"a\",5]" then .error ["a", ""]
      else if s = "[]" then .ok []
      else .error []
    inClusterConfig := .ok ⟨0⟩
    newForConfig := fun _ => .ok ⟨0⟩
    podNamespaceEnv := "gatekeeper-system"
    getSecret := fun _ _ name => if name = "a" then .ok ⟨1⟩ else .error "not found"
    newFromPullSecrets := fun _ => .ok (.base 1) }

/-- C8 counterexample: the segment `["a",5]` is present and malformed (the
unmarshal errors), yet the key does not proceed with an empty secret list and
the default keychain: Go's partial population leaves `["a",""]`, which takes
the in-cluster secret-fetch path and yields a merged keychain different from
the default. -/
theorem malformed_secret_segment_counterexample :
    wC8.decodeSecretList "[\"a\",5]" = .error ["a", ""] ∧
    keySecretNames wC8 "img|[\"a\",5]" = ["a", ""] ∧
    keySecretNames wC8 "img|[\"a\",5]" ≠ [] ∧
    createKeychainWithSecrets vTest wC8 (keySecretNames wC8 "img|[\"a\",5]") =
      .ok (.multi [.base 1, vTest.keychain]) ∧
    resolvedKeychain vTest wC8 (keySecretNames wC8 "img|[\"a\",5]") ≠
      vTest.keychain := by
  refine ⟨rfl, rfl, by decide, rfl, ?_⟩
  intro hc
  have hk : resolvedKeychain vTest wC8 (keySecretNames wC8 "img|[\"a\",5]") =
      .multi [.base 1, .base 0] := rfl
  have hv : vTest.keychain = .base 0 := rfl
  rw [hk, hv] at hc
  exact Keychain.noConfusion hc

/-- C8 amended: when the key's second segment is present, non-empty, and
fails to unmarshal as a JSON string list, the failure is soft — the key's
verification proceeds, not aborted, with whatever secret list the failed
unmarshal left behind; only when the unmarshal left the slice untouched
(as a syntax-invalid segment does) is that the empty list, which then
falls back to the verifier's default keychain. -/
theorem malformed_secret_segment_soft_failure_partial_population
    (v : AttestationVerifier) (w : World) (key ci co seg : String)
    (names : List String)
    (hseg : (keyParts key)[1]? = some seg)
    (hne : seg ≠ "")
    (hbad : w.decodeSecretList seg = .error names) :
    keySecretNames w key = names ∧
    VerifyAndExtractSBOMWithParams v w key ci co =
      verifyCore v w (keyImageRef key) names (keyCertIdentity key ci)
        (keyCertOidcIssuer key co) ∧
    (names = [] →
      createKeychainWithSecrets v w (keySecretNames w key) = .ok v.keychain) := by
  have hlist : keySecretNames w key = names := by
    simp [keySecretNames, hseg, hne, hbad]
  refine ⟨hlist, ?_, ?_⟩
  · rw [VerifyAndExtractSBOMWithParams, hlist]
  · intro hnil
    rw [hlist, hnil]
    rfl

/-- C8 witness: the amended theorem applied at the partially populated
segment `["a",5]` and at a syntax-invalid segment, discharging the
empty-slice implication at the latter. -/
theorem malformed_secret_segment_soft_failure_partial_population_witness :
    (keySecretNames wC8 "img|[\"a\",5]" = ["a", ""] ∧
      VerifyAndExtractSBOMWithParams vTest wC8 "img|[\"a\",5]" "" "" =
        verifyCore vTest wC8 (keyImageRef "img|[\"a\",5]") ["a", ""]
          (keyCertIdentity "img|[\"a\",5]" "") (keyCertOidcIssuer "img|[\"a\",5]" "")) ∧
    (keySecretNames wC8 "img|not-json" = [] ∧
      createKeychainWithSecrets vTest wC8 (keySecretNames wC8 "img|not-json") =
        .ok vTest.keychain) :=
  ⟨⟨(malformed_secret_segment_soft_failure_partial_population vTest wC8
        "img|[\"a\",5]" "" "" "[\"a\",5]" ["a", ""] (by rfl) (by decide) (by rfl)).1,
    (malformed_secret_segment_soft_failure_partial_population vTest wC8
        "img|[\"a\",5]" "" "" "[\"a\",5]" ["a", ""] (by rfl) (by decide) (by rfl)).2.1⟩,
   ⟨(malformed_secret_segment_soft_failure_partial_population vTest wC8
        "img|not-json" "" "" "not-json" [] (by rfl) (by decide) (by rfl)).1,
    (malformed_secret_segment_soft_failure_partial_population vTest wC8
        "img|not-json" "" "" "not-json" [] (by rfl) (by decide) (by rfl)).2.2 rfl⟩⟩

/-! ## C7 — exactly one of `value`/`error` per response item -/

theorem processImageRef_key (s : Server) (w : World) (k : String) :
    (processImageRef s w k).key = k := by
  rw [processImageRef]
  cases h : VerifyAndExtractSBOMWithParams s.verifier w k
      (if (goSplit k '|').length ≥ 4 then (goSplit k '|').getD 2 "" else "")
      (if (goSplit k '|').length ≥ 4 then (goSplit k '|').getD 3 "" else "") <;> simp [h]

/-- C7: the response carries exactly one item per request key, each item's
key is the request key, and each item populates exactly one of `value` and
`error`: an error item has an empty value and a non-empty error message, a
success item a non-empty marshalled SBOM and an empty error; an item with
both fields empty never occurs. -/
theorem response_items_exactly_one_populated_field (s : Server) (w : World)
    (keys : List String) :
    (handleVerifyItems s w keys).length = keys.length ∧
    (∀ i : Nat, ((handleVerifyItems s w keys)[i]?).map Item.key = keys[i]?) ∧
    (∀ item ∈ handleVerifyItems s w keys,
       (item.value = "" ∧ item.error ≠ "") ∨ (item.value ≠ "" ∧ item.error = "")) := by
  refine ⟨by simp [handleVerifyItems], ?_, ?_⟩
  · intro i
    simp only [handleVerifyItems, List.getElem?_map]
    cases hk : keys[i]? with
    | none => rfl
    | some k => simp [processImageRef_key]
  · intro item hitem
    simp only [handleVerifyItems, List.mem_map] at hitem
    obtain ⟨k, _, hk⟩ := hitem
    rw [← hk, processImageRef]
    cases h : VerifyAndExtractSBOMWithParams s.verifier w k
        (if (goSplit k '|').length ≥ 4 then (goSplit k '|').getD 2 "" else "")
        (if (goSplit k '|').length ≥ 4 then (goSplit k '|').getD 3 "" else "") with
    | error e =>
      left
      exact ⟨rfl, string_append_ne_empty_of_left _ e (by decide)⟩
    | ok u =>
      right
      exact ⟨marshalUnifiedSBOM_ne_empty u, rfl⟩

/-- The server instance used by the C7 witness. -/
def sTest : Server := { port := "8090", verifier := vTest }

/-- C7 witness: a concrete two-key batch has one item per key, and the
theorem's exactly-one-field property is discharged at a concrete item of that
batch. -/
theorem response_items_exactly_one_populated_field_witness :
    (handleVerifyItems sTest wTest ["img-a|[]|u@example.com|https://issuer", "img-b"]).length
      = (["img-a|[]|u@example.com|https://issuer", "img-b"] : List String).length ∧
    (((processImageRef sTest wTest "img-b").value = "" ∧
        (processImageRef sTest wTest "img-b").error ≠ "") ∨
      ((processImageRef sTest wTest "img-b").value ≠ "" ∧
        (processImageRef sTest wTest "img-b").error = "")) :=
  ⟨(response_items_exactly_one_populated_field sTest wTest
      ["img-a|[]|u@example.com|https://issuer", "img-b"]).1,
   (response_items_exactly_one_populated_field sTest wTest
      ["img-a|[]|u@example.com|https://issuer", "img-b"]).2.2
      (processImageRef sTest wTest "img-b") (by decide)⟩
